import Mathlib

/-!
Shallow embedding of the zenex-contracts perpetual-futures core
(`src/trading` and `src/vault`) and proofs about its position math,
keeper batch processor, and vault share accounting.

Monetary amounts are Rust `i128` values; they are embedded as `Int`
(arithmetic overflow aborts the transaction in the source, so no claim
below depends on wrap-around).  The fixed-point helpers mirror the
`soroban_fixed_point_math` crate: `floor` variants round toward negative
infinity, `ceil` variants toward positive infinity.
-/

namespace Zenex

/-- Token precision scalar, `constants.rs`: `SCALAR_7 = 10_000_000`. -/
def SCALAR_7 : Int := 10000000

/-- Interest-index precision scalar, `constants.rs`: `SCALAR_18 = 10^18`. -/
def SCALAR_18 : Int := 1000000000000000000

/-- Ceiling division (round toward positive infinity), expressed via
floor division: `cdiv a b = -((-a).fdiv b)`. -/
def cdiv (a b : Int) : Int := -(Int.fdiv (-a) b)

/-- soroban_fixed_point_math `x.fixed_mul_floor(y, d) = floor(x*y/d)`. -/
def fixed_mul_floor (x y d : Int) : Int := Int.fdiv (x * y) d

/-- soroban_fixed_point_math `x.fixed_mul_ceil(y, d) = ceil(x*y/d)`. -/
def fixed_mul_ceil (x y d : Int) : Int := cdiv (x * y) d

/-- soroban_fixed_point_math `x.fixed_div_floor(y, d) = floor(x*d/y)`. -/
def fixed_div_floor (x y d : Int) : Int := Int.fdiv (x * d) y

/-- soroban_fixed_point_math `x.fixed_div_ceil(y, d) = ceil(x*d/y)`. -/
def fixed_div_ceil (x y d : Int) : Int := cdiv (x * d) y

/-- Market configuration fields read by the position/execute code
(`types.rs` / usage in `trading/position.rs`, `trading/execute.rs`). -/
structure MarketConfig where
  base_fee : Int
  price_impact_scalar : Int
  maintenance_margin : Int
  init_margin : Int
  min_collateral : Int
  max_collateral : Int
deriving DecidableEq, Repr

/-- Mutable per-market aggregates (`types.rs` / usage in the trading core). -/
structure MarketData where
  long_collateral : Int
  long_notional_size : Int
  short_collateral : Int
  short_notional_size : Int
  long_interest_index : Int
  short_interest_index : Int
deriving DecidableEq, Repr

/-- A market: per-asset configuration plus mutable aggregates
(`trading/market.rs`). -/
structure Market where
  config : MarketConfig
  data : MarketData
deriving DecidableEq, Repr

/-- Position lifecycle status (`types.rs` as used by `trading/position.rs`):
Pending (unfilled limit order), Open, Closed (terminal). -/
inductive PositionStatus where
  | Pending
  | Open
  | Closed
deriving DecidableEq, Repr

/-- A user position (`types.rs` as used by the trading core).  Addresses and
assets are embedded as `Nat` identifiers. -/
structure Position where
  id : Nat
  user : Nat
  asset : Nat
  is_long : Bool
  status : PositionStatus
  entry_price : Int
  collateral : Int
  notional_size : Int
  stop_loss : Int
  take_profit : Int
  interest_index : Int
  created_at : Nat
deriving DecidableEq, Repr

/-- `Market::update_stats` (`trading/market.rs`): add the signed collateral
and notional deltas to the side's aggregates. -/
def Market.update_stats (m : Market) (collateral notional_size : Int)
    (is_long : Bool) : Market :=
  if is_long then
    { m with data := { m.data with
        long_notional_size := m.data.long_notional_size + notional_size,
        long_collateral := m.data.long_collateral + collateral } }
  else
    { m with data := { m.data with
        short_notional_size := m.data.short_notional_size + notional_size,
        short_collateral := m.data.short_collateral + collateral } }

/-- `Position::calculate_accrued_interest` (`trading/position.rs`):
`notional * (side_index - position_index) / S18`, floor. -/
def Position.calculate_accrued_interest (p : Position) (m : Market) : Int :=
  let index_difference :=
    if p.is_long then m.data.long_interest_index - p.interest_index
    else m.data.short_interest_index - p.interest_index
  fixed_mul_floor p.notional_size index_difference SCALAR_18

/-- `Position::calculate_fee` (`trading/position.rs`): base fee (charged only
when this position's side is dominant, ties included) plus price impact plus
accrued interest. -/
def Position.calculate_fee (p : Position) (m : Market) : Int :=
  let should_pay_base_fee :=
    if p.is_long then m.data.long_notional_size ≥ m.data.short_notional_size
    else m.data.short_notional_size ≥ m.data.long_notional_size
  let base_fee :=
    if should_pay_base_fee then
      fixed_mul_ceil p.notional_size m.config.base_fee SCALAR_7
    else 0
  let price_impact :=
    fixed_div_ceil p.notional_size m.config.price_impact_scalar SCALAR_7
  let interest_fee := p.calculate_accrued_interest m
  base_fee + price_impact + interest_fee

/-- `Position::calculate_pnl` (`trading/position.rs`):
`notional * floor((price_diff)*S7/entry) / S7`, floors throughout. -/
def Position.calculate_pnl (p : Position) (current_price : Int) : Int :=
  let price_diff :=
    if p.is_long then current_price - p.entry_price
    else p.entry_price - current_price
  if price_diff = 0 then 0
  else
    let price_change_ratio := fixed_div_floor price_diff p.entry_price SCALAR_7
    fixed_mul_floor p.notional_size price_change_ratio SCALAR_7

/-- `Position::check_take_profit` (`trading/position.rs`). -/
def Position.check_take_profit (p : Position) (current_price : Int) : Bool :=
  if p.take_profit = 0 then false
  else if p.is_long then decide (current_price ≥ p.take_profit)
  else decide (current_price ≤ p.take_profit)

/-- `Position::check_stop_loss` (`trading/position.rs`). -/
def Position.check_stop_loss (p : Position) (current_price : Int) : Bool :=
  if p.stop_loss = 0 then false
  else if p.is_long then decide (current_price ≤ p.stop_loss)
  else decide (current_price ≥ p.stop_loss)

/-- `Trading::calculate_caller_fee` (`trading/trading.rs`):
`floor(fee * caller_take_rate / S7)` clamped to be non-negative. -/
def calculate_caller_fee (caller_take_rate fee : Int) : Int :=
  let caller_fee := fixed_mul_floor fee caller_take_rate SCALAR_7
  if caller_fee > 0 then caller_fee else 0

/-- Result record of `Position::calculate_close` (`trading/position.rs`). -/
structure CloseCalculation where
  price : Int
  pnl : Int
  fee : Int
  user_payout : Int
  caller_fee : Int
  vault_transfer : Int
deriving DecidableEq, Repr

/-- `Position::calculate_close` (`trading/position.rs`).  The cached oracle
price and the global `caller_take_rate` are passed explicitly. -/
def Position.calculate_close (p : Position) (caller_take_rate : Int)
    (m : Market) (price : Int) : CloseCalculation :=
  let pnl := p.calculate_pnl price
  let fee := p.calculate_fee m
  let raw_caller_fee := |calculate_caller_fee caller_take_rate fee|
  let net_pnl := if fee ≥ 0 then pnl - fee else pnl + |fee| - raw_caller_fee
  let payout := p.collateral + net_pnl
  let user_payout := max payout 0
  let remaining := max (p.collateral - user_payout) 0
  let caller_fee := if fee ≥ 0 then min raw_caller_fee remaining else 0
  let vault_transfer :=
    if user_payout > p.collateral then -(user_payout - p.collateral)
    else remaining - caller_fee
  { price := price, pnl := pnl, fee := fee, user_payout := user_payout,
    caller_fee := caller_fee, vault_transfer := vault_transfer }

/-- Trading error taxonomy (`errors.rs`), restricted to the variants raised
by the embedded code paths. -/
inductive TradingError where
  | PositionNotFound
  | PositionAlreadyClosed
  | PositionNotOpen
  | PositionNotPending
  | MaxPositionsReached
  | InvalidCollateral
  | InvalidEntryPrice
  | InvalidTakeProfitPrice
  | InvalidStopLossPrice
  | TakeProfitNotTriggered
  | StopLossNotTriggered
  | PositionNotLiquidatable
  | LimitOrderNotFillable
  | ActionNotAllowedForStatus
  | ContractPaused
  | UtilizationLimitExceeded
deriving DecidableEq, Repr

/-- Stable `u32` codes of `TradingError` (`errors.rs`). -/
def TradingError.code : TradingError → Nat
  | .PositionNotFound => 325
  | .PositionAlreadyClosed => 326
  | .PositionNotOpen => 327
  | .PositionNotPending => 328
  | .MaxPositionsReached => 329
  | .InvalidCollateral => 330
  | .InvalidEntryPrice => 334
  | .InvalidTakeProfitPrice => 340
  | .InvalidStopLossPrice => 341
  | .TakeProfitNotTriggered => 342
  | .StopLossNotTriggered => 343
  | .PositionNotLiquidatable => 345
  | .LimitOrderNotFillable => 346
  | .ActionNotAllowedForStatus => 351
  | .ContractPaused => 380
  | .UtilizationLimitExceeded => 390

/-- Contract status constant `STATUS_ACTIVE = 0`. -/
def STATUS_ACTIVE : Int := 0

/-- Global configuration fields read by `execute_create_position`
(`types.rs` usage: `caller_take_rate`, `max_positions`, `max_utilization`). -/
structure GlobalConfig where
  caller_take_rate : Int
  max_positions : Nat
  max_utilization : Int
deriving DecidableEq, Repr

/-- `execute_create_position` (`trading/position.rs`), as a pure function of
the contract status, global config, vault assets, the user's current
position count, the (already refreshed) market, the cached oracle price and
the call arguments.  Returns the created position, the fee charged on top of
collateral (`open_fee + price_impact`), and the updated market. -/
def execute_create_position (status : Int) (config : GlobalConfig)
    (vault_assets : Int) (user_position_count : Nat) (m : Market)
    (current_price : Int) (next_id : Nat) (now : Nat) (user asset : Nat)
    (collateral notional_size : Int) (is_long : Bool)
    (entry_price take_profit stop_loss : Int) :
    Except TradingError (Position × Int × Market) :=
  if status ≠ STATUS_ACTIVE then .error .ContractPaused
  else if collateral < 0 ∨ notional_size < 0 ∨ entry_price < 0 then
    .error .InvalidCollateral
  else if config.max_utilization > 0 ∧
      m.data.long_notional_size + m.data.short_notional_size + notional_size >
        fixed_mul_floor vault_assets config.max_utilization SCALAR_7 then
    .error .UtilizationLimitExceeded
  else if collateral < m.config.min_collateral then .error .InvalidCollateral
  else if collateral > m.config.max_collateral then .error .InvalidCollateral
  else if ¬ user_position_count < config.max_positions then
    .error .MaxPositionsReached
  else
    if (¬ entry_price = 0) ∧
        ((is_long ∧ entry_price < current_price) ∨
         ((¬ is_long) ∧ entry_price > current_price)) then
      .error .InvalidEntryPrice
    else
      let actual_entry_price := if entry_price = 0 then current_price
        else entry_price
      let should_pay_base_fee :=
        if is_long then
          m.data.long_notional_size + notional_size >
            m.data.short_notional_size
        else
          m.data.short_notional_size + notional_size >
            m.data.long_notional_size
      let m' := if entry_price = 0 then
          m.update_stats collateral notional_size is_long
        else m
      let interest_index :=
        if is_long then m'.data.long_interest_index
        else m'.data.short_interest_index
      let position : Position :=
        { id := next_id, user := user, asset := asset, is_long := is_long,
          status := if entry_price = 0 then .Open else .Pending,
          entry_price := actual_entry_price, collateral := collateral,
          notional_size := notional_size, stop_loss := stop_loss,
          take_profit := take_profit, interest_index := interest_index,
          created_at := now }
      let open_fee :=
        if should_pay_base_fee then
          fixed_mul_ceil notional_size m.config.base_fee SCALAR_7
        else 0
      let price_impact :=
        fixed_div_ceil notional_size m.config.price_impact_scalar SCALAR_7
      .ok (position, open_fee + price_impact, m')

/-- `execute_set_triggers` (`trading/user_actions.rs`), from the point where
the position has been loaded (owner auth and the contract-status gate are
host-level and omitted): validate/assign take profit, then stop loss,
returning the updated position. -/
def execute_set_triggers (p : Position) (current_price : Int)
    (take_profit stop_loss : Int) : Except TradingError Position :=
  if p.status ≠ PositionStatus.Open then .error .PositionNotOpen
  else
    let step1 : Except TradingError Position :=
      if take_profit > 0 then
        if p.is_long then
          if take_profit ≤ current_price then .error .InvalidTakeProfitPrice
          else .ok { p with take_profit := take_profit }
        else
          if take_profit ≥ current_price then .error .InvalidTakeProfitPrice
          else .ok { p with take_profit := take_profit }
      else if take_profit = 0 then .ok { p with take_profit := 0 }
      else .ok p
    match step1 with
    | .error e => .error e
    | .ok p1 =>
      if stop_loss > 0 then
        if p1.is_long then
          if stop_loss ≥ current_price then .error .InvalidStopLossPrice
          else .ok { p1 with stop_loss := stop_loss }
        else
          if stop_loss ≤ current_price then .error .InvalidStopLossPrice
          else .ok { p1 with stop_loss := stop_loss }
      else if stop_loss = 0 then .ok { p1 with stop_loss := 0 }
      else .ok p1

/-- Vault error taxonomy (`vault/src/errors.rs`), restricted to the variants
raised by the embedded code paths. -/
inductive VaultError where
  | ZeroAmount
  | InsufficientShares
  | InvalidAmount
  | InsufficientVaultBalance
  | WithdrawalInProgress
  | WithdrawalLocked
  | UnauthorizedStrategy
deriving DecidableEq, Repr

/-- `VaultContract::deposit` (`vault/src/contract.rs`): mint shares for a
token deposit.  `total_shares` is the stored share supply and `total_tokens`
the vault's token balance, both read before the incoming transfer.  Returns
`(minted shares, new total_shares)`. -/
def deposit (total_shares total_tokens tokens : Int) :
    Except VaultError (Int × Int) :=
  if tokens ≤ 0 then .error .ZeroAmount
  else
    let shares :=
      if total_shares = 0 ∨ total_tokens = 0 then tokens
      else
        let ratio := fixed_div_floor total_shares total_tokens SCALAR_7
        fixed_mul_floor tokens ratio SCALAR_7
    .ok (shares, total_shares + shares)

/-- A pending vault withdrawal request (`vault/src/storage.rs`). -/
structure WithdrawalRequest where
  shares : Int
  unlock_time : Nat
deriving DecidableEq, Repr

/-- Result of a successful `emergency_withdraw`: tokens paid out, penalty
kept by the vault, the new `total_shares`, and the owner's request slot
after the call (always cleared on success). -/
structure EmergencyWithdrawResult where
  withdrawal_amount : Int
  penalty_amount : Int
  new_total_shares : Int
  request_after : Option WithdrawalRequest
deriving DecidableEq, Repr

/-- `VaultContract::emergency_withdraw` (`vault/src/contract.rs`): burn the
locked shares early, applying a linear time-decaying penalty that stays in
the vault.  `total_tokens` is the vault's token balance, `now` the ledger
timestamp. -/
def emergency_withdraw (request : WithdrawalRequest)
    (total_shares total_tokens : Int) (lock_time : Nat) (penalty_rate : Int)
    (now : Nat) : Except VaultError EmergencyWithdrawResult :=
  let ratio := fixed_div_floor total_tokens total_shares SCALAR_7
  let current_tokens := fixed_mul_floor request.shares ratio SCALAR_7
  let penalty_amount :=
    if now ≥ request.unlock_time then 0
    else
      let time_remaining : Int := ((request.unlock_time - now : Nat) : Int)
      let current_penalty_rate :=
        fixed_mul_floor penalty_rate time_remaining (lock_time : Int)
      fixed_mul_floor current_tokens current_penalty_rate SCALAR_7
  let withdrawal_amount := current_tokens - penalty_amount
  if withdrawal_amount ≤ 0 then .error .InvalidAmount
  else
    .ok { withdrawal_amount := withdrawal_amount,
          penalty_amount := penalty_amount,
          new_total_shares := total_shares - request.shares,
          request_after := none }

/-- `base_hourly_interest_rate` (`trading/interest.rs`): kinked jump-rate
model from utilization.  Note the below-kink branch multiplies utilization
by the target utilization (`fixed_mul_floor`), exactly as the source does. -/
def base_hourly_interest_rate (utilization min_rate target_rate max_rate
    target_utilization : Int) : Int :=
  if utilization ≤ target_utilization then
    let rate_range := target_rate - min_rate
    let utilization_ratio :=
      fixed_mul_floor utilization target_utilization SCALAR_7
    min_rate + fixed_mul_floor rate_range utilization_ratio SCALAR_7
  else
    let rate_range := max_rate - target_rate
    let excess_utilization := utilization - target_utilization
    let remaining_capacity := SCALAR_7 - target_utilization
    let utilization_ratio :=
      fixed_div_floor excess_utilization remaining_capacity SCALAR_7
    target_rate + fixed_mul_floor rate_range utilization_ratio SCALAR_7

/-- Loop body of `pow_int` (`trading/interest.rs`): binary exponentiation in
S18 fixed point with floor rounding at every multiplication. -/
def pow_int_loop (a z : Int) (n : Nat) : Int :=
  if h : n = 0 then z
  else
    let a2 := fixed_mul_floor a a SCALAR_18
    pow_int_loop a2 (if n % 2 ≠ 0 then fixed_mul_floor z a2 SCALAR_18 else z)
      (n / 2)
  termination_by n
  decreasing_by exact Nat.div_lt_self (Nat.pos_of_ne_zero h) (by decide)

/-- `pow_int` (`trading/interest.rs`): `a^n` in S18 fixed point. -/
def pow_int (a : Int) (n : Nat) : Int :=
  pow_int_loop a (if n % 2 ≠ 0 then a else SCALAR_18) (n / 2)

/-- Rust `I256::to_i128().unwrap_or(default)`: the value when it fits in
`i128`, otherwise the default. -/
def to_i128_or (x default : Int) : Int :=
  if -(2 ^ 127) ≤ x ∧ x < 2 ^ 127 then x else default

/-- `leverage_multiplier` (`trading/interest.rs`): `1.01 ^ floor(average
leverage)` computed in S18 and scaled back to S7.  The `as u32` cast of the
integer leverage is modelled as reduction modulo `2^32`. -/
def leverage_multiplier (collateral notional_size : Int) : Int :=
  if notional_size = 0 ∨ collateral = 0 then SCALAR_7
  else
    let average_leverage := fixed_div_floor notional_size collateral SCALAR_7
    let leverage_int : Nat :=
      ((Int.tdiv average_leverage SCALAR_7) % (2 ^ 32)).toNat
    if leverage_int = 0 then SCALAR_7
    else
      let scale_up := Int.tdiv SCALAR_18 SCALAR_7
      let base_18 : Int := 1010000000000000000
      let result_18 := pow_int base_18 leverage_int
      let result_i128 := to_i128_or result_18 SCALAR_18
      Int.tdiv result_i128 scale_up

/-- `calculate_long_short_ratios` (`trading/interest.rs`): S7 rate ratios
from the two notional aggregates; the larger side pays the full rate, the
smaller side is credited at a fixed 0.8 discount. -/
def calculate_long_short_ratios (total_notional_longs
    total_notional_shorts : Int) : Int × Int :=
  if total_notional_longs = 0 ∧ total_notional_shorts = 0 then
    (SCALAR_7, SCALAR_7)
  else if total_notional_longs > total_notional_shorts then
    (SCALAR_7, -8000000)
  else if total_notional_longs < total_notional_shorts then
    (-8000000, SCALAR_7)
  else (SCALAR_7, SCALAR_7)

/-- `calculate_long_short_hourly_rates` (`trading/interest.rs`): base kinked
rate, times the leverage multiplier, split into signed long/short hourly
rates by `calculate_long_short_ratios`. -/
def calculate_long_short_hourly_rates (utilization min_rate target_rate
    max_rate target_utilization long_collateral long_notional
    short_collateral short_notional : Int) : Int × Int :=
  let base_hourly_rate := base_hourly_interest_rate utilization min_rate
    target_rate max_rate target_utilization
  let total_collateral := long_collateral + short_collateral
  let total_notional := long_notional + short_notional
  let leverage_mult := leverage_multiplier total_collateral total_notional
  let leveraged_hourly_rate :=
    fixed_mul_floor base_hourly_rate leverage_mult SCALAR_7
  let ratios := calculate_long_short_ratios long_notional short_notional
  (fixed_mul_floor leveraged_hourly_rate ratios.1 SCALAR_7,
   fixed_mul_floor leveraged_hourly_rate ratios.2 SCALAR_7)

/-- Association-list lookup, modelling `soroban_sdk::Map::get` for `Nat`
keys. -/
def mget {α : Type} : List (Nat × α) → Nat → Option α
  | [], _ => none
  | (k', v) :: rest, k => if k = k' then some v else mget rest k

/-- Association-list update, modelling `soroban_sdk::Map::set`: replace the
binding when the key is present, append otherwise. -/
def mset {α : Type} : List (Nat × α) → Nat → α → List (Nat × α)
  | [], k, v => [(k, v)]
  | (k', v') :: rest, k, v =>
    if k = k' then (k, v) :: rest else (k', v') :: mset rest k v

/-- `ProcessingResult::add_transfer` (`trading/execute.rs`): accumulate a
signed token delta for an address. -/
def add_transfer (transfers : List (Nat × Int)) (address : Nat)
    (amount : Int) : List (Nat × Int) :=
  mset transfers address (amount + (mget transfers address).getD 0)

/-- Keeper request kinds (`types.rs` `ExecuteRequestType`). -/
inductive ExecuteRequestType where
  | Fill
  | StopLoss
  | TakeProfit
  | Liquidate
deriving DecidableEq, Repr

/-- A keeper request (`types.rs` `ExecuteRequest`). -/
structure ExecuteRequest where
  request_type : ExecuteRequestType
  position_id : Nat
deriving DecidableEq, Repr

/-- Per-invocation context of the keeper path: the global
`caller_take_rate`, the keeper and vault addresses, and the per-asset cached
oracle price (`Trading::load_price` caches one price per asset for the whole
batch). -/
structure TradingCtx where
  caller_take_rate : Int
  caller : Nat
  vault : Nat
  price : Nat → Int

/-- Mutable state threaded through a keeper batch: the position cache
(missing ids mean `try_load_position` fails with `PositionNotFound`), the
per-asset markets, and the accumulated transfer deltas of the batch's
`ProcessingResult`. -/
structure PState where
  positions : List (Nat × Position)
  markets : Nat → Market
  transfers : List (Nat × Int)

/-- `handle_close` (`trading/execute.rs`): shared close path of StopLoss and
TakeProfit.  Computes `calculate_close`, queues the user payout, vault
transfer and caller fee, marks the position Closed and shrinks the side's
aggregates. -/
def handle_close (t : TradingCtx) (s : PState) (p : Position) : PState :=
  let m := s.markets p.asset
  let cc := p.calculate_close t.caller_take_rate m (t.price p.asset)
  let ts0 := s.transfers
  let ts1 := if cc.user_payout > 0 then add_transfer ts0 p.user
    cc.user_payout else ts0
  let ts2 := if cc.vault_transfer ≠ 0 then add_transfer ts1 t.vault
    cc.vault_transfer else ts1
  let ts3 := if cc.caller_fee > 0 then add_transfer ts2 t.caller
    cc.caller_fee else ts2
  let m' := m.update_stats (-p.collateral) (-p.notional_size) p.is_long
  { positions := mset s.positions p.id { p with status := .Closed },
    markets := fun a => if a = p.asset then m' else s.markets a,
    transfers := ts3 }

/-- `apply_fill` (`trading/execute.rs`): fill a pending limit order at the
cached price, grow the side's aggregates, and route the base fee — computed
from the position's collateral — to the vault net of the keeper's cut. -/
def apply_fill (t : TradingCtx) (s : PState) (p : Position) : Nat × PState :=
  let current_price := t.price p.asset
  let can_fill :=
    if p.is_long then current_price ≤ p.entry_price
    else current_price ≥ p.entry_price
  if ¬ can_fill then (TradingError.LimitOrderNotFillable.code, s)
  else
    let p' := { p with status := .Open, entry_price := current_price }
    let m := s.markets p.asset
    let m' := m.update_stats p.collateral p.notional_size p.is_long
    let base_fee := fixed_mul_ceil p.collateral m.config.base_fee SCALAR_7
    let caller_fee := calculate_caller_fee t.caller_take_rate base_fee
    let ts1 := add_transfer s.transfers t.caller caller_fee
    let ts2 := add_transfer ts1 t.vault (base_fee - caller_fee)
    (0, { positions := mset s.positions p.id p',
          markets := fun a => if a = p.asset then m' else s.markets a,
          transfers := ts2 })

/-- `apply_stop_loss` (`trading/execute.rs`). -/
def apply_stop_loss (t : TradingCtx) (s : PState) (p : Position) :
    Nat × PState :=
  if ¬ p.check_stop_loss (t.price p.asset) then
    (TradingError.StopLossNotTriggered.code, s)
  else (0, handle_close t s p)

/-- `apply_take_profit` (`trading/execute.rs`). -/
def apply_take_profit (t : TradingCtx) (s : PState) (p : Position) :
    Nat × PState :=
  if ¬ p.check_take_profit (t.price p.asset) then
    (TradingError.TakeProfitNotTriggered.code, s)
  else (0, handle_close t s p)

/-- `apply_liquidation` (`trading/execute.rs`): close an underwater position
with no user payout; the keeper receives `calculate_caller_fee fee` and the
vault the rest of the collateral. -/
def apply_liquidation (t : TradingCtx) (s : PState) (p : Position) :
    Nat × PState :=
  let current_price := t.price p.asset
  let m := s.markets p.asset
  let pnl := p.calculate_pnl current_price
  let fee := p.calculate_fee m
  let equity := p.collateral + pnl - fee
  let required_margin :=
    fixed_mul_floor p.notional_size m.config.maintenance_margin SCALAR_7
  if equity ≥ required_margin then
    (TradingError.PositionNotLiquidatable.code, s)
  else
    let caller_fee := calculate_caller_fee t.caller_take_rate fee
    let ts1 := add_transfer s.transfers t.caller caller_fee
    let vault_amount := p.collateral - caller_fee
    let ts2 := add_transfer ts1 t.vault vault_amount
    let m' := m.update_stats (-p.collateral) (-p.notional_size) p.is_long
    (0, { positions := mset s.positions p.id { p with status := .Closed },
          markets := fun a => if a = p.asset then m' else s.markets a,
          transfers := ts2 })

/-- One iteration of the request loop in `process_execute_requests`
(`trading/execute.rs`): load the position (`Trading::try_load_position` is
declared but not defined in the sources; modelled from the spec, an
unavailable position records the `PositionNotFound` code), check the status
precondition for the request kind, then dispatch. -/
def process_one (t : TradingCtx) (s : PState) (r : ExecuteRequest) :
    Nat × PState :=
  match mget s.positions r.position_id with
  | none => (TradingError.PositionNotFound.code, s)
  | some position =>
    let check : Bool × Nat :=
      match r.request_type with
      | .Fill =>
        if position.status ≠ PositionStatus.Pending then
          (false, TradingError.PositionNotPending.code)
        else (true, 0)
      | .StopLoss | .TakeProfit | .Liquidate =>
        if position.status ≠ PositionStatus.Open then
          (false, TradingError.ActionNotAllowedForStatus.code)
        else (true, 0)
    if ¬ check.1 then (check.2, s)
    else
      match r.request_type with
      | .Fill => apply_fill t s position
      | .StopLoss => apply_stop_loss t s position
      | .TakeProfit => apply_take_profit t s position
      | .Liquidate => apply_liquidation t s position

/-- `process_execute_requests` (`trading/execute.rs`): fold the requests in
input order, collecting one result code per request; a failed request leaves
the threaded state untouched and processing continues. -/
def process_execute_requests (t : TradingCtx) (s : PState) :
    List ExecuteRequest → List Nat × PState
  | [] => ([], s)
  | r :: rs =>
    let step := process_one t s r
    let rest := process_execute_requests t step.2 rs
    (step.1 :: rest.1, rest.2)

/-- Steps 1-3 of `calculate_long_short_hourly_rates` (`trading/interest.rs`):
the kinked base hourly rate scaled by the leverage multiplier.  Named here so
the rate characterization below can refer to it. -/
def leveraged_hourly_rate (utilization min_rate target_rate max_rate
    target_utilization long_collateral long_notional short_collateral
    short_notional : Int) : Int :=
  fixed_mul_floor
    (base_hourly_interest_rate utilization min_rate target_rate max_rate
      target_utilization)
    (leverage_multiplier (long_collateral + short_collateral)
      (long_notional + short_notional))
    SCALAR_7

/-- Settlement amounts `(net_pnl, user_payout, caller_fee, vault_transfer)`
exactly as the spec states them for claim C1, with
`raw_caller_fee = |fee * caller_take_rate / S7|` (written here with the
floor rounding of the code's multiply; the refutation below uses an input
where the division is exact, so the rounding choice is immaterial).  This
definition follows the spec's words, not the source, and exists only to be
compared with `Position.calculate_close`. -/
def spec_close_amounts (collateral pnl fee rate : Int) :
    Int × Int × Int × Int :=
  let raw_caller_fee := |fixed_mul_floor fee rate SCALAR_7|
  let net_pnl := if fee ≥ 0 then pnl - fee else pnl + |fee| - raw_caller_fee
  let user_payout := max (collateral + net_pnl) 0
  let remaining := max (collateral - user_payout) 0
  let caller_fee := if fee ≥ 0 then min raw_caller_fee remaining else 0
  let vault_transfer :=
    if user_payout > collateral then -(user_payout - collateral)
    else remaining - caller_fee
  (net_pnl, user_payout, caller_fee, vault_transfer)

/-- The liquidation keeper fee exactly as claim C2 states it:
`min(|fee * caller_take_rate / S7|, collateral)`.  Follows the spec's words,
for comparison with the code's `calculate_caller_fee`. -/
def spec_liquidation_caller_fee (fee rate collateral : Int) : Int :=
  min |fixed_mul_floor fee rate SCALAR_7| collateral

/-- The fill base fee exactly as claim C3 states it:
`notional * base_fee_rate`, ceil at S7.  Follows the spec's words, for
comparison with the collateral-based fee in `apply_fill`. -/
def spec_fill_base_fee (notional base_fee_rate : Int) : Int :=
  fixed_mul_ceil notional base_fee_rate SCALAR_7

/-- The imbalance rule exactly as claim C5 states it (discount `0.8`).  The
ratio cases use exact integer floor division; the refutation below only
exercises the constant both-sides-empty case `(0, 0)`, which involves no
rounding at all.  Follows the spec's words, for comparison with
`calculate_long_short_hourly_rates`. -/
def spec_imbalance_rates (base long short : Int) : Int × Int :=
  if long = 0 ∧ short = 0 then (0, 0)
  else if short = 0 then (base, -(Int.fdiv (base * 8) 10))
  else if long = 0 then (-(Int.fdiv (base * 8) 10), base)
  else if long = short then (base, base)
  else if long > short then
    (Int.fdiv (base * long) short,
     -(Int.fdiv (base * 8 * long * long) (short * short * 10)))
  else
    (-(Int.fdiv (base * 8 * short * short) (long * long * 10)),
     Int.fdiv (base * short) long)

/-- The price-impact fee exactly as claim C6 states it: the quadratic form
`ceil(notional^2 / (price_impact_scalar * S7))`.  Follows the spec's words,
for comparison with the linear fee in `Position.calculate_fee` and
`execute_create_position`. -/
def spec_quadratic_price_impact (notional price_impact_scalar : Int) : Int :=
  cdiv (notional * notional) (price_impact_scalar * SCALAR_7)

/-- The price-impact term shared verbatim by `Position::calculate_fee` and
`execute_create_position` in the source:
`notional.fixed_div_ceil(price_impact_scalar, S7)`. -/
def price_impact_fee (notional price_impact_scalar : Int) : Int :=
  fixed_div_ceil notional price_impact_scalar SCALAR_7

/-- Shares minted for a non-first deposit exactly as claim C8 states it:
`floor(tokens * S / T)`.  Follows the spec's words, for comparison with the
two-step rounding in `deposit`. -/
def spec_deposit_shares (tokens total_shares total_tokens : Int) : Int :=
  Int.fdiv (tokens * total_shares) total_tokens

/-- The early-withdrawal penalty exactly as claim C9 states it:
`floor(current_tokens * max_penalty_rate * time_remaining / lock_time /
S7)`.  Follows the spec's words, for comparison with the two-step rounding
in `emergency_withdraw`. -/
def spec_linear_penalty (current_tokens rate time_remaining lock_time :
    Int) : Int :=
  Int.fdiv (current_tokens * rate * time_remaining) (lock_time * SCALAR_7)

/-- Fixture for C1: an open long with a negative total fee (the accrued
interest term is a rebate of `-10000001`, the price impact is `1`, the base
fee is `0` because the long side is non-dominant), evaluated at a price equal
to its entry. -/
def p1 : Position :=
  { id := 1, user := 10, asset := 0, is_long := true, status := .Open,
    entry_price := 10000000, collateral := 20000000,
    notional_size := 10000000, stop_loss := 0, take_profit := 0,
    interest_index := 2000000100000000000, created_at := 0 }

/-- Fixture market for C1: short side dominant, zero base fee, price impact
scalar `10^14`. -/
def m1 : Market :=
  { config :=
      { base_fee := 0, price_impact_scalar := 100000000000000,
        maintenance_margin := 50000000, init_margin := 0,
        min_collateral := 0, max_collateral := 0 },
    data :=
      { long_collateral := 0, long_notional_size := 10000000,
        short_collateral := 0, short_notional_size := 20000000,
        long_interest_index := 1000000000000000000,
        short_interest_index := 1000000000000000000 } }

/-- Fixture for C2: an open 0.5x long bought at `2 * S7`, quoted at `S7`,
carrying the same negative fee as `p1` (interest rebate `-10000001`, price
impact `1`, no base fee). -/
def p2 : Position :=
  { id := 5, user := 11, asset := 0, is_long := true, status := .Open,
    entry_price := 20000000, collateral := 20000000,
    notional_size := 10000000, stop_loss := 0, take_profit := 0,
    interest_index := 2000000100000000000, created_at := 0 }

/-- Fixture market for C2: short side dominant, maintenance margin `5 * S7`
(so `p2` is deeply below margin). -/
def m2 : Market :=
  { config :=
      { base_fee := 0, price_impact_scalar := 100000000000000,
        maintenance_margin := 50000000, init_margin := 0,
        min_collateral := 0, max_collateral := 0 },
    data :=
      { long_collateral := 0, long_notional_size := 10000000,
        short_collateral := 0, short_notional_size := 20000000,
        long_interest_index := 1000000000000000000,
        short_interest_index := 1000000000000000000 } }

/-- Fixture market for the C2 witness: as `m2` but with a zero maintenance
margin, so `p2` is not liquidatable. -/
def m2b : Market :=
  { config :=
      { base_fee := 0, price_impact_scalar := 100000000000000,
        maintenance_margin := 0, init_margin := 0,
        min_collateral := 0, max_collateral := 0 },
    data :=
      { long_collateral := 0, long_notional_size := 10000000,
        short_collateral := 0, short_notional_size := 20000000,
        long_interest_index := 1000000000000000000,
        short_interest_index := 1000000000000000000 } }

/-- Fixture keeper context: 50% take rate, keeper address `2`, vault
address `3`, all assets quoted at `S7`. -/
def t2 : TradingCtx :=
  { caller_take_rate := 5000000, caller := 2, vault := 3,
    price := fun _ => 10000000 }

/-- Fixture batch state holding only `p2` over market `m2`. -/
def s2 : PState :=
  { positions := [(5, p2)], markets := fun _ => m2, transfers := [] }

/-- Fixture batch state holding only `p2` over market `m2b`. -/
def s2b : PState :=
  { positions := [(5, p2)], markets := fun _ => m2b, transfers := [] }

/-- Fixture for C3: a pending long limit order at entry `S7` with collateral
`S7` and notional `2 * S7` (collateral and notional deliberately differ). -/
def p3 : Position :=
  { id := 6, user := 12, asset := 0, is_long := true, status := .Pending,
    entry_price := 10000000, collateral := 10000000,
    notional_size := 20000000, stop_loss := 0, take_profit := 0,
    interest_index := 1000000000000000000, created_at := 0 }

/-- Fixture market for C3: 10% base fee rate, empty aggregates. -/
def m3 : Market :=
  { config :=
      { base_fee := 1000000, price_impact_scalar := 100000000000000,
        maintenance_margin := 0, init_margin := 0,
        min_collateral := 0, max_collateral := 0 },
    data :=
      { long_collateral := 0, long_notional_size := 0,
        short_collateral := 0, short_notional_size := 0,
        long_interest_index := 1000000000000000000,
        short_interest_index := 1000000000000000000 } }

/-- Fixture keeper context for C3: zero take rate, keeper `2`, vault `3`,
all assets quoted at `S7`. -/
def t3 : TradingCtx :=
  { caller_take_rate := 0, caller := 2, vault := 3,
    price := fun _ => 10000000 }

/-- Fixture batch state holding only `p3` over market `m3`. -/
def s3 : PState :=
  { positions := [(6, p3)], markets := fun _ => m3, transfers := [] }

/-- Fixture global config for C4: no utilization cap, one position allowed. -/
def cfg4 : GlobalConfig :=
  { caller_take_rate := 0, max_positions := 1, max_utilization := 0 }

/-- Fixture market for C4, mirroring the BTC market of the repository's own
test fixtures (`price_impact_scalar = 8_000_000_000`). -/
def m4 : Market :=
  { config :=
      { base_fee := 0, price_impact_scalar := 8000000000,
        maintenance_margin := 1, init_margin := 1,
        min_collateral := 10000000, max_collateral := 100000000000000 },
    data :=
      { long_collateral := 0, long_notional_size := 0,
        short_collateral := 0, short_notional_size := 0,
        long_interest_index := 1000000000000000000,
        short_interest_index := 1000000000000000000 } }

/-- Fixture for C6: an open long of notional `2000 * S7` with no accrued
interest (entry index equals the market index). -/
def p6 : Position :=
  { id := 8, user := 13, asset := 0, is_long := true, status := .Open,
    entry_price := 10000000, collateral := 10000000,
    notional_size := 20000000000, stop_loss := 0, take_profit := 0,
    interest_index := 1000000000000000000, created_at := 0 }

/-- Fixture market for C6: `price_impact_scalar = 8 * 10^9` (the BTC fixture
value), short side dominant so the base fee vanishes. -/
def m6 : Market :=
  { config :=
      { base_fee := 0, price_impact_scalar := 8000000000,
        maintenance_margin := 0, init_margin := 0,
        min_collateral := 0, max_collateral := 0 },
    data :=
      { long_collateral := 0, long_notional_size := 0,
        short_collateral := 0, short_notional_size := 1,
        long_interest_index := 1000000000000000000,
        short_interest_index := 1000000000000000000 } }

/-- Fixture batch state for C7: no positions at all, so any request fails
with `PositionNotFound`. -/
def s7 : PState :=
  { positions := [], markets := fun _ => m3, transfers := [] }

/-- Fixture withdrawal request for C9: `3 * S7` locked shares, unlocking at
time `100`. -/
def req9 : WithdrawalRequest := { shares := 30000000, unlock_time := 100 }

/-- Fixture for C10: an open long with both triggers set. -/
def p10 : Position :=
  { id := 3, user := 14, asset := 0, is_long := true, status := .Open,
    entry_price := 100, collateral := 100, notional_size := 100,
    stop_loss := 55, take_profit := 200, interest_index := 0,
    created_at := 0 }

-- FIXTURES-END

/-! ### Helper lemmas -/

/-- Floor division of a non-positive integer by a positive one is
non-positive. -/
theorem fdiv_nonpos_of_nonpos (x d : Int) (hx : x ≤ 0) (hd : 0 < d) :
    Int.fdiv x d ≤ 0 := by
  rw [Int.fdiv_eq_ediv _ (le_of_lt hd)]
  have h := Int.ediv_le_ediv hd hx
  simpa using h

/-- The clamped keeper fee is never negative. -/
theorem calculate_caller_fee_nonneg (r f : Int) :
    0 ≤ calculate_caller_fee r f := by
  simp only [calculate_caller_fee]
  split
  · omega
  · exact le_refl 0

/-- With a non-negative take rate, a negative fee yields a zero keeper fee:
the floor product is non-positive and the clamp turns it into `0`. -/
theorem calculate_caller_fee_eq_zero (r f : Int) (hr : 0 ≤ r) (hf : f < 0) :
    calculate_caller_fee r f = 0 := by
  have hmul : f * r ≤ 0 := mul_nonpos_iff.mpr (Or.inr ⟨le_of_lt hf, hr⟩)
  have hle : fixed_mul_floor f r SCALAR_7 ≤ 0 := by
    unfold fixed_mul_floor
    exact fdiv_nonpos_of_nonpos _ _ hmul (by norm_num [SCALAR_7])
  simp only [calculate_caller_fee]
  rw [if_neg (by omega)]

/-- Lookup after setting the same key. -/
theorem mget_mset_self {α : Type} (l : List (Nat × α)) (k : Nat) (v : α) :
    mget (mset l k v) k = some v := by
  induction l with
  | nil => simp [mset, mget]
  | cons hd tl ih =>
    rcases hd with ⟨k', v'⟩
    by_cases h : k = k'
    · subst h
      simp [mset, mget]
    · simp [mset, mget, h, ih]

/-- Lookup after setting a different key. -/
theorem mget_mset_ne {α : Type} (l : List (Nat × α)) (k k' : Nat) (v : α)
    (h : k ≠ k') : mget (mset l k' v) k = mget l k := by
  induction l with
  | nil => simp [mset, mget, h]
  | cons hd tl ih =>
    rcases hd with ⟨a, b⟩
    by_cases h1 : k' = a
    · subst h1
      simp [mset, mget, h]
    · by_cases h2 : k = a
      · subst h2
        simp [mset, mget, h1]
      · simp [mset, mget, h1, h2, ih]

/-- Accumulated transfer delta at the address just posted to. -/
theorem mget_add_transfer_self (ts : List (Nat × Int)) (a : Nat)
    (amt : Int) :
    mget (add_transfer ts a amt) a = some (amt + (mget ts a).getD 0) := by
  unfold add_transfer
  exact mget_mset_self ts a _

/-- Posting a transfer for one address leaves every other address's
accumulated delta unchanged. -/
theorem mget_add_transfer_ne (ts : List (Nat × Int)) (a b : Nat)
    (amt : Int) (h : b ≠ a) :
    mget (add_transfer ts a amt) b = mget ts b := by
  unfold add_transfer
  exact mget_mset_ne ts b a _ h

/-! ### Claim C1 -/

/-- C1 (amended).  For every close settlement, with
`raw_caller_fee = calculate_caller_fee fee = max(0, floor(fee *
caller_take_rate / S7))` — zero whenever `fee < 0` — the amounts are:
`net_pnl = pnl - fee` when `fee ≥ 0` and `pnl + |fee|` when `fee < 0`;
`user_payout = max(0, collateral + net_pnl)`;
`remaining = max(0, collateral - user_payout)`;
`caller_fee = min(raw_caller_fee, remaining)` when `fee ≥ 0`, else `0`;
`vault_transfer = -(user_payout - collateral)` if `user_payout >
collateral`, else `remaining - caller_fee`. -/
theorem close_settlement_characterization (p : Position) (m : Market)
    (rate price : Int) (hr : 0 ≤ rate) :
    ∀ pnl fee raw_caller_fee net_pnl user_payout remaining caller_fee,
      pnl = p.calculate_pnl price →
      fee = p.calculate_fee m →
      raw_caller_fee = calculate_caller_fee rate fee →
      net_pnl = (if fee ≥ 0 then pnl - fee else pnl + |fee|) →
      user_payout = max (p.collateral + net_pnl) 0 →
      remaining = max (p.collateral - user_payout) 0 →
      caller_fee = (if fee ≥ 0 then min raw_caller_fee remaining else 0) →
      p.calculate_close rate m price =
        { price := price, pnl := pnl, fee := fee,
          user_payout := user_payout, caller_fee := caller_fee,
          vault_transfer := if user_payout > p.collateral
            then -(user_payout - p.collateral)
            else remaining - caller_fee } := by
  intro pnl fee raw_caller_fee net_pnl user_payout remaining caller_fee
    hpnl hfee hraw hnet hup hrem hcf
  subst hpnl hfee hraw hnet hup hrem hcf
  by_cases hf : p.calculate_fee m ≥ 0
  · simp only [Position.calculate_close, if_pos hf,
      abs_of_nonneg (calculate_caller_fee_nonneg rate (p.calculate_fee m))]
  · have hz : calculate_caller_fee rate (p.calculate_fee m) = 0 :=
      calculate_caller_fee_eq_zero _ _ hr (lt_of_not_ge hf)
    simp only [Position.calculate_close, if_neg hf, hz, abs_zero, sub_zero]

/-- Witness for C1: the characterization applied to the concrete fixture. -/
theorem close_settlement_characterization_witness :
    0 ≤ (5000000 : Int) ∧
    Position.calculate_close p1 5000000 m1 10000000 =
      { price := 10000000, pnl := 0, fee := -10000000,
        user_payout := 30000000, caller_fee := 0,
        vault_transfer := -10000000 } := by
  refine ⟨by decide, ?_⟩
  rw [close_settlement_characterization p1 m1 5000000 10000000 (by decide)
    0 (-10000000) 0 10000000 30000000 0 0
    (by decide) (by decide) (by decide) (by decide) (by decide) (by decide)
    (by decide)]
  decide

/-- Counterexample for C1 as stated: at a negative fee the code's
`raw_caller_fee` is `0` (the clamp in `calculate_caller_fee` runs before the
absolute value), so the user keeps the whole rebate, while the claim's
formula subtracts `|fee * caller_take_rate / S7| = 5000000` from it. -/
theorem close_negative_fee_keeper_cut_refuted :
    Position.calculate_fee p1 m1 = -10000000 ∧
    Position.calculate_pnl p1 10000000 = 0 ∧
    (Position.calculate_close p1 5000000 m1 10000000).user_payout =
      30000000 ∧
    (spec_close_amounts 20000000 0 (-10000000) 5000000).2.1 = 25000000 ∧
    (30000000 : Int) ≠ 25000000 := by decide

/-- Dispatch of `process_one` for a Liquidate request whose position is
loaded and Open. -/
theorem process_one_liquidate_open (t : TradingCtx) (s : PState) (id : Nat)
    (p : Position) (hload : mget s.positions id = some p)
    (hopen : p.status = PositionStatus.Open) :
    process_one t s { request_type := .Liquidate, position_id := id } =
      apply_liquidation t s p := by
  simp [process_one, hload, hopen]

/-! ### Claim C2 -/

/-- C2 (amended).  A keeper Liquidate request on an Open position succeeds
iff `collateral + pnl - fee < floor(notional * maintenance_margin / S7)` at
the cached price.  On success the user receives no transfer, the keeper
receives `caller_fee = max(0, floor(fee * caller_take_rate / S7))` — with no
cap at the collateral, and zero whenever `fee < 0` — the vault receives
`collateral - caller_fee`, the position closes and the side's aggregates
shrink.  When the inequality fails the request records
`PositionNotLiquidatable` and changes no state. -/
theorem liquidation_threshold_and_payouts (t : TradingCtx) (s : PState)
    (id : Nat) (p : Position)
    (hload : mget s.positions id = some p)
    (hopen : p.status = PositionStatus.Open)
    (huc : p.user ≠ t.caller) (huv : p.user ≠ t.vault)
    (hcv : t.caller ≠ t.vault) :
    ∀ pnl fee equity required_margin caller_fee,
      pnl = p.calculate_pnl (t.price p.asset) →
      fee = p.calculate_fee (s.markets p.asset) →
      equity = p.collateral + pnl - fee →
      required_margin = fixed_mul_floor p.notional_size
        (s.markets p.asset).config.maintenance_margin SCALAR_7 →
      caller_fee = calculate_caller_fee t.caller_take_rate fee →
      (equity ≥ required_margin →
        process_one t s { request_type := .Liquidate, position_id := id } =
          (TradingError.PositionNotLiquidatable.code, s)) ∧
      (equity < required_margin →
        (process_one t s { request_type := .Liquidate, position_id := id }).1
            = 0 ∧
        mget (process_one t s
            { request_type := .Liquidate, position_id := id }).2.transfers
            t.caller =
          some (caller_fee + (mget s.transfers t.caller).getD 0) ∧
        mget (process_one t s
            { request_type := .Liquidate, position_id := id }).2.transfers
            t.vault =
          some (p.collateral - caller_fee +
            (mget s.transfers t.vault).getD 0) ∧
        mget (process_one t s
            { request_type := .Liquidate, position_id := id }).2.transfers
            p.user = mget s.transfers p.user ∧
        mget (process_one t s
            { request_type := .Liquidate, position_id := id }).2.positions
            p.id = some { p with status := .Closed } ∧
        (process_one t s
            { request_type := .Liquidate, position_id := id }).2.markets
            p.asset =
          (s.markets p.asset).update_stats (-p.collateral)
            (-p.notional_size) p.is_long) := by
  intro pnl fee equity required_margin caller_fee hpnl hfee heq hreq hcf
  subst hpnl hfee heq hreq hcf
  rw [process_one_liquidate_open t s id p hload hopen]
  simp only [apply_liquidation]
  constructor
  · intro hge
    rw [if_pos hge]
  · intro hlt
    rw [if_neg (not_le.mpr hlt)]
    refine ⟨rfl, ?_, ?_, ?_, ?_, ?_⟩
    · rw [mget_add_transfer_ne _ _ _ _ hcv, mget_add_transfer_self]
    · rw [mget_add_transfer_self,
        mget_add_transfer_ne _ _ _ _ (Ne.symm hcv)]
    · rw [mget_add_transfer_ne _ _ _ _ huv, mget_add_transfer_ne _ _ _ _ huc]
    · rw [mget_mset_self]
    · simp

/-- Witness for C2: the characterization applied to the concrete fixture
(the not-liquidatable branch: equity `25000000` against a zero required
margin). -/
theorem liquidation_threshold_and_payouts_witness :
    (25000000 : Int) ≥ 0 ∧
    process_one t2 s2b { request_type := .Liquidate, position_id := 5 } =
      (TradingError.PositionNotLiquidatable.code, s2b) := by
  refine ⟨by decide, ?_⟩
  exact (liquidation_threshold_and_payouts t2 s2b 5 p2 (by decide) rfl
    (by decide) (by decide) (by decide) (-5000000) (-10000000) 25000000 0 0
    (by decide) (by decide) (by decide) (by decide) (by decide)).1
    (by decide)

/-- Counterexample for C2 as stated: at a liquidation with `fee =
-10000000` and a 50% take rate the code pays the keeper
`calculate_caller_fee = 0`, while the claim's
`min(|fee * caller_take_rate / S7|, collateral)` is `5000000`. -/
theorem liquidation_caller_fee_claim_refuted :
    Position.calculate_fee p2 m2 = -10000000 ∧
    (process_one t2 s2 { request_type := .Liquidate, position_id := 5 }).1
        = 0 ∧
    mget (process_one t2 s2
        { request_type := .Liquidate, position_id := 5 }).2.transfers 2 =
      some 0 ∧
    spec_liquidation_caller_fee (-10000000) 5000000 20000000 = 5000000 ∧
    (0 : Int) ≠ 5000000 := by decide

/-! ### Claim C3 -/

/-- Dispatch of `process_one` for a Fill request whose position is loaded
and Pending. -/
theorem process_one_fill_pending (t : TradingCtx) (s : PState) (id : Nat)
    (p : Position) (hload : mget s.positions id = some p)
    (hpend : p.status = PositionStatus.Pending) :
    process_one t s { request_type := .Fill, position_id := id } =
      apply_fill t s p := by
  simp [process_one, hload, hpend]

/-- C3 (amended).  A keeper Fill request on a loaded position: if the
position is not Pending it records `PositionNotPending`; on a Pending
position it succeeds iff `current_price ≤ entry_price` (long) or
`current_price ≥ entry_price` (short); on success the position becomes Open
at the current price, the side's aggregates grow by `(+collateral,
+notional)`, and the fee routed to the vault is `base_fee - caller_fee`
where `base_fee = ceil(collateral * base_fee_rate / S7)` — computed from the
position's collateral, not its notional — and
`caller_fee = calculate_caller_fee base_fee` goes to the keeper. -/
theorem fill_preconditions_and_fee_routing (t : TradingCtx) (s : PState)
    (id : Nat) (p : Position)
    (hload : mget s.positions id = some p)
    (hcv : t.caller ≠ t.vault) :
    ∀ current_price base_fee caller_fee,
      current_price = t.price p.asset →
      base_fee = fixed_mul_ceil p.collateral
        (s.markets p.asset).config.base_fee SCALAR_7 →
      caller_fee = calculate_caller_fee t.caller_take_rate base_fee →
      (p.status ≠ PositionStatus.Pending →
        process_one t s { request_type := .Fill, position_id := id } =
          (TradingError.PositionNotPending.code, s)) ∧
      (p.status = PositionStatus.Pending →
        (¬ (if p.is_long then current_price ≤ p.entry_price
            else current_price ≥ p.entry_price) →
          process_one t s { request_type := .Fill, position_id := id } =
            (TradingError.LimitOrderNotFillable.code, s)) ∧
        ((if p.is_long then current_price ≤ p.entry_price
          else current_price ≥ p.entry_price) →
          (process_one t s
              { request_type := .Fill, position_id := id }).1 = 0 ∧
          mget (process_one t s
              { request_type := .Fill, position_id := id }).2.positions
              p.id =
            some { p with status := .Open, entry_price := current_price } ∧
          (process_one t s
              { request_type := .Fill, position_id := id }).2.markets
              p.asset =
            (s.markets p.asset).update_stats p.collateral p.notional_size
              p.is_long ∧
          mget (process_one t s
              { request_type := .Fill, position_id := id }).2.transfers
              t.caller =
            some (caller_fee + (mget s.transfers t.caller).getD 0) ∧
          mget (process_one t s
              { request_type := .Fill, position_id := id }).2.transfers
              t.vault =
            some (base_fee - caller_fee +
              (mget s.transfers t.vault).getD 0))) := by
  intro current_price base_fee caller_fee hcp hbf hcf
  subst hcp hbf hcf
  constructor
  · intro hnp
    simp [process_one, hload, hnp]
  · intro hpend
    rw [process_one_fill_pending t s id p hload hpend]
    simp only [apply_fill]
    constructor
    · intro hnofill
      rw [if_pos hnofill]
    · intro hfill
      rw [if_neg (not_not_intro hfill)]
      refine ⟨rfl, ?_, ?_, ?_, ?_⟩
      · rw [mget_mset_self]
      · simp
      · rw [mget_add_transfer_ne _ _ _ _ hcv, mget_add_transfer_self]
      · rw [mget_add_transfer_self,
          mget_add_transfer_ne _ _ _ _ (Ne.symm hcv)]

/-- Witness for C3: the fill succeeds on the concrete fixture and routes
`base_fee = 1000000` (10% of the collateral `S7`) to the vault with a zero
keeper cut. -/
theorem fill_preconditions_and_fee_routing_witness :
    (if p3.is_long then (10000000 : Int) ≤ p3.entry_price
     else (10000000 : Int) ≥ p3.entry_price) ∧
    ((process_one t3 s3 { request_type := .Fill, position_id := 6 }).1
        = 0 ∧
     mget (process_one t3 s3
         { request_type := .Fill, position_id := 6 }).2.positions p3.id =
       some { p3 with status := .Open, entry_price := 10000000 } ∧
     (process_one t3 s3
         { request_type := .Fill, position_id := 6 }).2.markets p3.asset =
       (s3.markets p3.asset).update_stats p3.collateral p3.notional_size
         p3.is_long ∧
     mget (process_one t3 s3
         { request_type := .Fill, position_id := 6 }).2.transfers
         t3.caller =
       some (calculate_caller_fee t3.caller_take_rate
           (fixed_mul_ceil p3.collateral (s3.markets p3.asset).config.base_fee
             SCALAR_7) +
         (mget s3.transfers t3.caller).getD 0) ∧
     mget (process_one t3 s3
         { request_type := .Fill, position_id := 6 }).2.transfers
         t3.vault =
       some (fixed_mul_ceil p3.collateral
           (s3.markets p3.asset).config.base_fee SCALAR_7 -
         calculate_caller_fee t3.caller_take_rate
           (fixed_mul_ceil p3.collateral (s3.markets p3.asset).config.base_fee
             SCALAR_7) +
         (mget s3.transfers t3.vault).getD 0)) :=
  ⟨by decide,
   ((fill_preconditions_and_fee_routing t3 s3 6 p3 (by decide) (by decide)
      10000000
      (fixed_mul_ceil p3.collateral (s3.markets p3.asset).config.base_fee
        SCALAR_7)
      (calculate_caller_fee t3.caller_take_rate
        (fixed_mul_ceil p3.collateral (s3.markets p3.asset).config.base_fee
          SCALAR_7))
      (by decide) rfl rfl).2 rfl).2 (by decide)⟩

/-- Counterexample for C3 as stated: on the concrete fill the vault is
credited `1000000` (ceil of collateral times the 10% base-fee rate, keeper
cut zero), while the claim's notional-based
`base_fee = ceil(notional * base_fee_rate / S7)` is `2000000`. -/
theorem fill_base_fee_notional_claim_refuted :
    (process_one t3 s3 { request_type := .Fill, position_id := 6 }).1
        = 0 ∧
    mget (process_one t3 s3
        { request_type := .Fill, position_id := 6 }).2.transfers 3 =
      some 1000000 ∧
    spec_fill_base_fee 20000000 1000000 = 2000000 ∧
    (1000000 : Int) ≠ 2000000 := by decide

/-! ### Claim C4 -/

/-- C4 evaluation at the repository's own test input
(`test_fill_limit_order_long`): a long limit order at entry `99000 * S7`
while the oracle quotes `100000 * S7` — side-consistent per the claim
(`entry ≤ current`) and expected Pending by the repository's tests — is
rejected by `execute_create_position` with `InvalidEntryPrice`, because the
source's comparison at `trading/position.rs:244` is inverted.  Conversely an
entry above the oracle price, which the claim rejects, is accepted as
Pending. -/
theorem limit_entry_validation_rejects_testcase :
    execute_create_position 0 cfg4 0 0 m4 1000000000000 1 0 7 0
        10000000000 20000000000 true 990000000000 0 0 =
      .error .InvalidEntryPrice ∧
    (990000000000 : Int) ≤ 1000000000000 ∧
    execute_create_position 0 cfg4 0 0 m4 1000000000000 1 0 7 0
        10000000000 20000000000 true 1010000000000 0 0 =
      .ok ({ id := 1, user := 7, asset := 0, is_long := true,
             status := .Pending, entry_price := 1010000000000,
             collateral := 10000000000, notional_size := 20000000000,
             stop_loss := 0, take_profit := 0,
             interest_index := 1000000000000000000, created_at := 0 },
           25000000, m4) := by
  refine ⟨by rfl, by decide, by rfl⟩

/-! ### Claim C5 -/

/-- C5 (amended).  The signed hourly rates produced by
`calculate_long_short_hourly_rates` are, with `L` the kinked base hourly
rate times the leverage multiplier (`leveraged_hourly_rate`):
`(L, L)` when the notionals are equal (including both empty);
`(L, floor(L * -0.8))` when longs dominate (including an empty short side);
`(floor(L * -0.8), L)` when shorts dominate (including an empty long side).
There is no ratio scaling and no quadratic discount, and an empty market
is charged the full leveraged base rate on both sides rather than `(0,0)`. -/
theorem hourly_rate_imbalance_characterization (u minr tr maxr tu lc ln sc
    sn : Int) :
    (ln = sn →
      calculate_long_short_hourly_rates u minr tr maxr tu lc ln sc sn =
        (leveraged_hourly_rate u minr tr maxr tu lc ln sc sn,
         leveraged_hourly_rate u minr tr maxr tu lc ln sc sn)) ∧
    (ln > sn →
      calculate_long_short_hourly_rates u minr tr maxr tu lc ln sc sn =
        (leveraged_hourly_rate u minr tr maxr tu lc ln sc sn,
         fixed_mul_floor (leveraged_hourly_rate u minr tr maxr tu lc ln sc sn)
           (-8000000) SCALAR_7)) ∧
    (ln < sn →
      calculate_long_short_hourly_rates u minr tr maxr tu lc ln sc sn =
        (fixed_mul_floor (leveraged_hourly_rate u minr tr maxr tu lc ln sc sn)
           (-8000000) SCALAR_7,
         leveraged_hourly_rate u minr tr maxr tu lc ln sc sn)) := by
  have hmul : ∀ L : Int, fixed_mul_floor L SCALAR_7 SCALAR_7 = L := by
    intro L
    unfold fixed_mul_floor
    exact Int.mul_fdiv_cancel L (by norm_num [SCALAR_7])
  refine ⟨?_, ?_, ?_⟩
  · intro h
    subst h
    simp only [calculate_long_short_hourly_rates,
      calculate_long_short_ratios, leveraged_hourly_rate]
    split_ifs <;> first | omega | simp [hmul]
  · intro h
    simp only [calculate_long_short_hourly_rates,
      calculate_long_short_ratios, leveraged_hourly_rate]
    split_ifs <;> first | omega | simp [hmul]
  · intro h
    simp only [calculate_long_short_hourly_rates,
      calculate_long_short_ratios, leveraged_hourly_rate]
    split_ifs <;> first | omega | simp [hmul]

/-- Witness for C5: the long-dominant branch applied at a concrete input. -/
theorem hourly_rate_imbalance_characterization_witness :
    (5 : Int) > 3 ∧
    calculate_long_short_hourly_rates 0 100 200 900 8000000 10 5 10 3 =
      (leveraged_hourly_rate 0 100 200 900 8000000 10 5 10 3,
       fixed_mul_floor (leveraged_hourly_rate 0 100 200 900 8000000 10 5 10 3)
         (-8000000) SCALAR_7) :=
  ⟨by decide,
   (hourly_rate_imbalance_characterization 0 100 200 900 8000000
     10 5 10 3).2.1 (by decide)⟩

/-- Counterexample for C5 as stated: with both sides empty and a non-zero
base rate the code charges `(100, 100)` (the leveraged base rate on both
sides), while the claim's imbalance rule prescribes `(0, 0)`. -/
theorem imbalance_rule_empty_market_refuted :
    calculate_long_short_hourly_rates 0 100 200 900 8000000 0 0 0 0 =
      (100, 100) ∧
    spec_imbalance_rates 100 0 0 = (0, 0) ∧
    ((100, 100) : Int × Int) ≠ (0, 0) := by decide

/-! ### Claim C6 -/

set_option maxHeartbeats 1000000 in
/-- C6 (amended).  The price-impact fee is the linear form
`price_impact_fee = ceil(notional * S7 / price_impact_scalar)` — not the
quadratic `notional^2` form — and it is charged unconditionally: the close
fee decomposes as base fee (dominance-gated) plus `price_impact_fee` plus
accrued interest for every position and market, and every successful
`execute_create_position` charges `price_impact_fee` on top of the
(dominance-gated) open base fee. -/
theorem price_impact_linear_on_open_and_close :
    (∀ (p : Position) (m : Market),
      p.calculate_fee m =
        (if (if p.is_long then
              m.data.long_notional_size ≥ m.data.short_notional_size
             else m.data.short_notional_size ≥ m.data.long_notional_size)
         then fixed_mul_ceil p.notional_size m.config.base_fee SCALAR_7
         else 0) +
        price_impact_fee p.notional_size m.config.price_impact_scalar +
        p.calculate_accrued_interest m) ∧
    (∀ (status : Int) (config : GlobalConfig) (vault_assets : Int)
        (cnt : Nat) (m : Market) (current_price : Int) (next_id now user
        asset : Nat) (collateral notional_size : Int) (is_long : Bool)
        (entry_price take_profit stop_loss : Int) (pos : Position)
        (fee : Int) (m' : Market),
      execute_create_position status config vault_assets cnt m current_price
          next_id now user asset collateral notional_size is_long
          entry_price take_profit stop_loss = .ok (pos, fee, m') →
      ∃ open_base_fee,
        fee = open_base_fee +
          price_impact_fee notional_size m.config.price_impact_scalar ∧
        (open_base_fee = 0 ∨
          open_base_fee =
            fixed_mul_ceil notional_size m.config.base_fee SCALAR_7)) := by
  constructor
  · intro p m
    rfl
  · intro status config vault_assets cnt m current_price next_id now user
      asset collateral notional_size l entry_price take_profit stop_loss
      pos fee m' h
    unfold execute_create_position at h
    split_ifs at h with h1 h2 h3 h4 h5 h6 h7
    all_goals simp only [Except.ok.injEq, Prod.mk.injEq, reduceCtorEq] at h
    all_goals
      (obtain ⟨-, hfee, -⟩ := h
       simp only [price_impact_fee]
       refine ⟨_, hfee.symm, ?_⟩
       split_ifs <;> simp)

/-- Witness for C6: the open-path decomposition applied at the concrete C4
fixture order (fee `25000000 = 0 + ceil(2*10^10 * 10^7 / 8*10^9)`). -/
theorem price_impact_linear_on_open_and_close_witness :
    execute_create_position 0 cfg4 0 0 m4 1000000000000 1 0 7 0
        10000000000 20000000000 true 1010000000000 0 0 =
      .ok ({ id := 1, user := 7, asset := 0, is_long := true,
             status := .Pending, entry_price := 1010000000000,
             collateral := 10000000000, notional_size := 20000000000,
             stop_loss := 0, take_profit := 0,
             interest_index := 1000000000000000000, created_at := 0 },
           25000000, m4) ∧
    ∃ open_base_fee,
      (25000000 : Int) = open_base_fee +
        price_impact_fee 20000000000 m4.config.price_impact_scalar ∧
      (open_base_fee = 0 ∨
        open_base_fee =
          fixed_mul_ceil 20000000000 m4.config.base_fee SCALAR_7) :=
  ⟨by rfl,
   price_impact_linear_on_open_and_close.2 0 cfg4 0 0 m4 1000000000000 1 0
     7 0 10000000000 20000000000 true 1010000000000 0 0 _ 25000000 m4
     (by rfl)⟩

/-- Counterexample for C6 as stated: at notional `2000 * S7` with scalar
`8 * 10^9` the code charges the linear `25000000` while the claim's
quadratic `ceil(notional^2 / (scalar * S7))` is `5000`. -/
theorem price_impact_quadratic_claim_refuted :
    Position.calculate_fee p6 m6 = 25000000 ∧
    price_impact_fee 20000000000 8000000000 = 25000000 ∧
    spec_quadratic_price_impact 20000000000 8000000000 = 5000 ∧
    (25000000 : Int) ≠ 5000 := by decide

/-! ### Claim C7 -/

/-- C7.  For every keeper batch: the returned code vector has exactly one
entry per request, produced in input order (the batch is the fold of the
per-request step, so earlier successful requests' state and transfers are
never rolled back by a later failure); every per-request code is `0` on
success or the code of a typed `TradingError`; no error code is `0`; and a
request that records a non-zero code leaves the threaded state — positions,
markets and accumulated transfers — exactly as it found it. -/
theorem batch_results_in_order_failures_isolated :
    (∀ (t : TradingCtx) (s : PState) (rs : List ExecuteRequest),
      (process_execute_requests t s rs).1.length = rs.length) ∧
    (∀ (t : TradingCtx) (s : PState) (r : ExecuteRequest)
        (rs : List ExecuteRequest),
      process_execute_requests t s (r :: rs) =
        ((process_one t s r).1 ::
            (process_execute_requests t (process_one t s r).2 rs).1,
          (process_execute_requests t (process_one t s r).2 rs).2)) ∧
    (∀ (t : TradingCtx) (s : PState) (r : ExecuteRequest),
      (process_one t s r).1 = 0 ∨
        ∃ e : TradingError, (process_one t s r).1 = e.code) ∧
    (∀ e : TradingError, e.code ≠ 0) ∧
    (∀ (t : TradingCtx) (s : PState) (r : ExecuteRequest),
      (process_one t s r).1 ≠ 0 → (process_one t s r).2 = s) := by
  refine ⟨?_, ?_, ?_, ?_, ?_⟩
  · intro t s rs
    induction rs generalizing s with
    | nil => rfl
    | cons r rs ih =>
      simp [process_execute_requests, ih]
  · intro t s r rs
    rfl
  · intro t s r
    unfold process_one
    cases hm : mget s.positions r.position_id with
    | none => exact Or.inr ⟨.PositionNotFound, rfl⟩
    | some p =>
      cases r.request_type <;>
        simp only [apply_fill, apply_stop_loss, apply_take_profit,
          apply_liquidation] <;>
        split_ifs <;>
        first
          | exact Or.inl rfl
          | exact Or.inr ⟨.PositionNotPending, rfl⟩
          | exact Or.inr ⟨.ActionNotAllowedForStatus, rfl⟩
          | exact Or.inr ⟨.LimitOrderNotFillable, rfl⟩
          | exact Or.inr ⟨.StopLossNotTriggered, rfl⟩
          | exact Or.inr ⟨.TakeProfitNotTriggered, rfl⟩
          | exact Or.inr ⟨.PositionNotLiquidatable, rfl⟩
  · intro e
    cases e <;> decide
  · intro t s r
    unfold process_one
    cases hm : mget s.positions r.position_id with
    | none => intro _; rfl
    | some p =>
      cases r.request_type <;>
        simp only [apply_fill, apply_stop_loss, apply_take_profit,
          apply_liquidation] <;>
        split_ifs <;>
        intro h <;>
        first
          | rfl
          | exact absurd rfl h

/-- Witness for C7: a request against an unknown position id records the
non-zero `PositionNotFound` code and leaves the state untouched. -/
theorem batch_results_in_order_failures_isolated_witness :
    (process_one t3 s7 { request_type := .Fill, position_id := 9 }).1 ≠ 0 ∧
    (process_one t3 s7 { request_type := .Fill, position_id := 9 }).2 =
      s7 :=
  ⟨by decide,
   batch_results_in_order_failures_isolated.2.2.2.2 t3 s7
     { request_type := .Fill, position_id := 9 } (by decide)⟩

/-! ### Claim C8 -/

/-- C8 (amended).  For a vault deposit with pre-transfer balance `T` and
share supply `S`: `tokens ≤ 0` fails with `ZeroAmount`; when `S = 0` or
`T = 0` exactly `tokens` shares are minted 1:1; otherwise the minted shares
are the two-step rounding `floor(tokens * floor(S * S7 / T) / S7)` — the
ratio is floored at S7 precision first — and `total_shares` grows by
exactly the minted amount in both cases. -/
theorem deposit_share_minting (S T tokens : Int) :
    (tokens ≤ 0 → deposit S T tokens = .error .ZeroAmount) ∧
    (0 < tokens → S = 0 ∨ T = 0 →
      deposit S T tokens = .ok (tokens, S + tokens)) ∧
    (0 < tokens → S ≠ 0 → T ≠ 0 →
      deposit S T tokens =
        .ok (fixed_mul_floor tokens (fixed_div_floor S T SCALAR_7) SCALAR_7,
          S + fixed_mul_floor tokens (fixed_div_floor S T SCALAR_7)
            SCALAR_7)) := by
  refine ⟨?_, ?_, ?_⟩
  · intro h
    simp [deposit, h]
  · intro ht h0
    rcases h0 with h0 | h0 <;> simp [deposit, not_le.mpr ht, h0]
  · intro ht hS hT
    simp [deposit, not_le.mpr ht, hS, hT]

/-- Witness for C8: the non-first-deposit branch at `S = 1`, `T = 3`,
`tokens = 3`. -/
theorem deposit_share_minting_witness :
    0 < (3 : Int) ∧ (1 : Int) ≠ 0 ∧ (3 : Int) ≠ 0 ∧
    deposit 1 3 3 =
      .ok (fixed_mul_floor 3 (fixed_div_floor 1 3 SCALAR_7) SCALAR_7,
        1 + fixed_mul_floor 3 (fixed_div_floor 1 3 SCALAR_7) SCALAR_7) :=
  ⟨by decide, by decide, by decide,
   (deposit_share_minting 1 3 3).2.2 (by decide) (by decide) (by decide)⟩

/-- Counterexample for C8 as stated: at `S = 1`, `T = 3`, `tokens = 3` the
code mints `floor(3 * floor(1 * S7 / 3) / S7) = 0` shares, while the
claim's single floor `floor(tokens * S / T)` is `1`. -/
theorem deposit_single_floor_claim_refuted :
    deposit 1 3 3 = .ok (0, 1) ∧
    spec_deposit_shares 3 1 3 = 1 ∧
    (0 : Int) ≠ 1 := ⟨by rfl, by decide, by decide⟩

/-! ### Claim C9 -/

/-- C9 (amended).  For `emergency_withdraw` with `current_tokens =
floor(shares * floor(T * S7 / S) / S7)`: at or after the unlock time the
penalty is exactly zero; before it, the penalty is the two-step rounding
`floor(current_tokens * floor(rate * time_remaining / lock_time) / S7)` —
the time-scaled rate is floored first, not the claim's single floor over
`current_tokens * rate * time_remaining / lock_time / S7`; the call fails
with `InvalidAmount` exactly when the payout `current_tokens - penalty` is
non-positive, and otherwise pays the owner the payout, decreases
`total_shares` by the locked shares, and clears the request. -/
theorem emergency_withdraw_penalty (req : WithdrawalRequest) (S T : Int)
    (lock : Nat) (rate : Int) (now : Nat) :
    ∀ current_tokens,
      current_tokens =
        fixed_mul_floor req.shares (fixed_div_floor T S SCALAR_7)
          SCALAR_7 →
      (now ≥ req.unlock_time →
        (current_tokens ≤ 0 →
          emergency_withdraw req S T lock rate now = .error .InvalidAmount) ∧
        (0 < current_tokens →
          emergency_withdraw req S T lock rate now =
            .ok { withdrawal_amount := current_tokens, penalty_amount := 0,
                  new_total_shares := S - req.shares,
                  request_after := none })) ∧
      (now < req.unlock_time →
        ∀ penalty,
          penalty = fixed_mul_floor current_tokens
            (fixed_mul_floor rate ((req.unlock_time - now : Nat) : Int)
              (lock : Int)) SCALAR_7 →
          (current_tokens - penalty ≤ 0 →
            emergency_withdraw req S T lock rate now =
              .error .InvalidAmount) ∧
          (0 < current_tokens - penalty →
            emergency_withdraw req S T lock rate now =
              .ok { withdrawal_amount := current_tokens - penalty,
                    penalty_amount := penalty,
                    new_total_shares := S - req.shares,
                    request_after := none })) := by
  intro current_tokens hct
  subst hct
  constructor
  · intro hge
    constructor
    · intro hle
      simp only [emergency_withdraw, if_pos hge, sub_zero]
      rw [if_pos hle]
    · intro hpos
      simp only [emergency_withdraw, if_pos hge, sub_zero]
      rw [if_neg (not_le.mpr hpos)]
  · intro hlt penalty hpen
    subst hpen
    constructor
    · intro hle
      simp only [emergency_withdraw, if_neg (not_le.mpr hlt)]
      rw [if_pos hle]
    · intro hpos
      simp only [emergency_withdraw, if_neg (not_le.mpr hlt)]
      rw [if_neg (not_le.mpr hpos)]

/-- Witness for C9: the pre-unlock branch at the concrete fixture (one of
three lock seconds remaining, 100% penalty rate): payout `20000001`,
penalty `9999999`. -/
theorem emergency_withdraw_penalty_witness :
    (99 : Nat) < 100 ∧ 0 < (30000000 : Int) - 9999999 ∧
    emergency_withdraw req9 30000000 30000000 3 10000000 99 =
      .ok { withdrawal_amount := 20000001, penalty_amount := 9999999,
            new_total_shares := 0, request_after := none } := by
  refine ⟨by decide, by decide, ?_⟩
  have h := (((emergency_withdraw_penalty req9 30000000 30000000 3
    10000000 99) 30000000 (by decide)).2 (by decide) 9999999
    (by decide)).2 (by decide)
  rw [h]
  rfl

/-- Counterexample for C9 as stated: one second before a three-second lock
expires with a 100% max penalty rate, the code charges `9999999` (its inner
division `floor(rate * remaining / lock)` rounds first), while the claim's
`floor(current_tokens * rate * remaining / lock / S7)` is exactly
`10000000`. -/
theorem penalty_rounding_claim_refuted :
    emergency_withdraw req9 30000000 30000000 3 10000000 99 =
      .ok { withdrawal_amount := 20000001, penalty_amount := 9999999,
            new_total_shares := 0, request_after := none } ∧
    spec_linear_penalty 30000000 10000000 1 3 = 10000000 ∧
    (9999999 : Int) ≠ 10000000 := ⟨by rfl, by decide, by decide⟩

/-! ### Claim C10 -/

/-- C10.  On an Open position, `execute_set_triggers` errors only when a
strictly positive argument fails its direction check; a zero argument
clears the corresponding trigger; a strictly negative argument succeeds and
leaves that trigger unchanged (it is neither stored nor treated as a
clear); and no field other than the two triggers ever changes. -/
theorem set_triggers_characterization (p : Position) (cp tp sl : Int)
    (h : p.status = PositionStatus.Open) :
    execute_set_triggers p cp tp sl =
      (if tp > 0 ∧ ((p.is_long = true ∧ tp ≤ cp) ∨
          (¬p.is_long = true ∧ tp ≥ cp)) then
        Except.error TradingError.InvalidTakeProfitPrice
      else if sl > 0 ∧ ((p.is_long = true ∧ sl ≥ cp) ∨
          (¬p.is_long = true ∧ sl ≤ cp)) then
        Except.error TradingError.InvalidStopLossPrice
      else
        Except.ok { p with
          take_profit := if tp > 0 then tp else if tp = 0 then 0
            else p.take_profit,
          stop_loss := if sl > 0 then sl else if sl = 0 then 0
            else p.stop_loss }) := by
  unfold execute_set_triggers
  rw [h]
  rw [if_neg (by simp : ¬(PositionStatus.Open ≠ PositionStatus.Open))]
  by_cases hl : p.is_long = true <;>
    by_cases htp : tp > 0 <;>
      by_cases hsl : sl > 0 <;>
        simp only [hl, htp, hsl, if_true, if_false, ite_true, ite_false,
          true_and, false_and, and_true, and_false, not_true, not_false_iff,
          or_false, false_or, if_pos, if_neg] <;>
        split_ifs <;>
        simp_all <;>
        first | omega | (cases p; simp_all)

/-- Witness for C10: strictly negative arguments on an Open position
succeed and return the position completely unchanged. -/
theorem set_triggers_characterization_witness :
    p10.status = PositionStatus.Open ∧
    execute_set_triggers p10 100 (-5) (-7) = .ok p10 := by
  refine ⟨rfl, ?_⟩
  rw [set_triggers_characterization p10 100 (-5) (-7) rfl]
  rfl

end Zenex
